import Mathlib

/-!
Verification of the URL-shortener client (`src/frontend/src/App.js`).

The development shallowly embeds the three logic components of the app:
the validator (`isValidHttpUrl`, `parseValidityOrDefault`), the submit
orchestration (`handleSubmit`), and the bounded persisted history
(`record` / persistence round-trip / `load`).

Host-platform builtins used by the code are modelled explicitly:
* `Number(string)` (ECMAScript StringToNumber) is modelled by
  `strToNumber`, producing exact values: a finite result is kept as a
  decimal fixed-point pair `dec m k` denoting `m / 10^k` (IEEE-754
  binary64 rounding is not modelled; all claims below are insensitive
  to it).
* `new URL(string)` (WHATWG URL constructor) is modelled by `jsURL`,
  covering exactly the fragment the code observes: parse success and the
  resulting `protocol`.  Host validation is simplified to "non-empty and
  free of forbidden host code points"; IDNA and IPv6 bracket syntax are
  not modelled.
* `JSON.stringify` / `JSON.parse` are modelled at the JSON-value level
  (`JVal`): stringification of plain data followed by parsing is the
  identity on JSON values, which is the platform guarantee the history
  persistence relies on.
* `fetch` and `localStorage` are modelled by passing the outcome of the
  network call (`NetOutcome`) and of the storage read (`StorageResult`)
  as explicit data.
-/

/-- ECMAScript whitespace recognised by `String.prototype.trim` (ASCII
fragment plus NBSP and the BOM; sufficient for the inputs considered). -/
def isJsWhitespace (c : Char) : Bool :=
  c = ' ' ∨ c = '\t' ∨ c = '\n' ∨ c = '\r' ∨ c.toNat = 0x0b ∨ c.toNat = 0x0c ∨
    c.toNat = 0xa0 ∨ c.toNat = 0xfeff

/-- Model of `String.prototype.trim`: strip leading and trailing whitespace. -/
def jsTrim (s : String) : String :=
  String.mk ((((s.data.dropWhile isJsWhitespace).reverse.dropWhile isJsWhitespace).reverse))

/-- A JavaScript number as produced by `Number(...)`: NaN, signed infinity,
or a finite value.  A finite value is kept exactly, as a decimal
fixed-point pair: `dec m k` denotes the rational `m / 10 ^ k`. -/
inductive JSNum where
  | nan : JSNum
  | posInf : JSNum
  | negInf : JSNum
  | dec : ℤ → ℕ → JSNum
deriving DecidableEq, Repr

/-- Rational value of a finite JavaScript number (`none` for NaN/infinities). -/
def JSNum.toRat : JSNum → Option ℚ
  | .dec m k => some ((m : ℚ) / (10 : ℚ) ^ k)
  | _ => none

/-- Numeric value of a digit character in bases up to 16. -/
def digitVal (c : Char) : ℕ :=
  if '0' ≤ c ∧ c ≤ '9' then c.toNat - '0'.toNat
  else if 'a' ≤ c ∧ c ≤ 'f' then c.toNat - 'a'.toNat + 10
  else if 'A' ≤ c ∧ c ≤ 'F' then c.toNat - 'A'.toNat + 10
  else 0

def isDecDigit (c : Char) : Bool := '0' ≤ c ∧ c ≤ '9'

def isHexDigitCh (c : Char) : Bool :=
  isDecDigit c ∨ ('a' ≤ c ∧ c ≤ 'f') ∨ ('A' ≤ c ∧ c ≤ 'F')

def isBinDigit (c : Char) : Bool := c = '0' ∨ c = '1'

def isOctDigit (c : Char) : Bool := '0' ≤ c ∧ c ≤ '7'

/-- Value of a digit string in the given base. -/
def digitsToNat (base : ℕ) (cs : List Char) : ℕ :=
  cs.foldl (fun a c => a * base + digitVal c) 0

/-- Build the finite JavaScript number `mant * 10 ^ net` as a decimal
fixed-point value: positive exponents are folded into the mantissa,
negative ones become the fixed-point scale. -/
def mkDec (mant : ℕ) (net : ℤ) : JSNum :=
  if 0 ≤ net then .dec ((mant : ℤ) * (10 : ℤ) ^ net.toNat) 0
  else .dec (mant : ℤ) (-net).toNat

/-- Parse the optional exponent suffix of a StrDecimalLiteral
(`e`/`E`, optional sign, at least one digit, consuming the whole rest).
Returns the exponent, `some 0` for an empty rest, `none` on garbage. -/
def parseExpPart (cs : List Char) : Option ℤ :=
  match cs with
  | [] => some 0
  | 'e' :: rest => parseExpDigits rest
  | 'E' :: rest => parseExpDigits rest
  | _ => none
where
  parseExpDigits : List Char → Option ℤ
    | '+' :: ds => if ds ≠ [] ∧ ds.all isDecDigit then some (digitsToNat 10 ds : ℤ) else none
    | '-' :: ds => if ds ≠ [] ∧ ds.all isDecDigit then some (-(digitsToNat 10 ds : ℤ)) else none
    | ds => if ds ≠ [] ∧ ds.all isDecDigit then some (digitsToNat 10 ds : ℤ) else none

/-- Parse a StrUnsignedDecimalLiteral without the `Infinity` alternative:
`digits [. digits] [exp]` or `. digits [exp]`.  `none` means NaN. -/
def parseUnsignedDec (cs : List Char) : Option JSNum :=
  let ip := cs.takeWhile isDecDigit
  let rest := cs.drop ip.length
  match rest with
  | '.' :: rest2 =>
    let fp := rest2.takeWhile isDecDigit
    let rest3 := rest2.drop fp.length
    if ip.isEmpty ∧ fp.isEmpty then none
    else (parseExpPart rest3).map fun e =>
      mkDec (digitsToNat 10 (ip ++ fp)) (e - fp.length)
  | _ =>
    if ip.isEmpty then none
    else (parseExpPart rest).map fun e => mkDec (digitsToNat 10 ip) e

/-- Decimal (or `Infinity`) tail after an explicit sign: the ECMAScript
grammar allows the non-decimal (hex/binary/octal) forms only unsigned. -/
def signedTail (cs : List Char) : JSNum :=
  if cs = "Infinity".data then .posInf
  else match parseUnsignedDec cs with
    | some n => n
    | none => .nan

/-- Negate a JavaScript number. -/
def jsNeg : JSNum → JSNum
  | .nan => .nan
  | .posInf => .negInf
  | .negInf => .posInf
  | .dec m k => .dec (-m) k

/-- Unsigned tail of a StrNumericLiteral: `Infinity`, a hex/binary/octal
integer literal, or an unsigned decimal literal. -/
def unsignedTail (cs : List Char) : JSNum :=
  if cs = "Infinity".data then .posInf
  else match cs with
    | '0' :: x :: ds =>
      if x = 'x' ∨ x = 'X' then
        if ds ≠ [] ∧ ds.all isHexDigitCh then .dec (digitsToNat 16 ds : ℤ) 0 else .nan
      else if x = 'b' ∨ x = 'B' then
        if ds ≠ [] ∧ ds.all isBinDigit then .dec (digitsToNat 2 ds : ℤ) 0 else .nan
      else if x = 'o' ∨ x = 'O' then
        if ds ≠ [] ∧ ds.all isOctDigit then .dec (digitsToNat 8 ds : ℤ) 0 else .nan
      else match parseUnsignedDec ('0' :: x :: ds) with
        | some n => n
        | none => .nan
    | _ => match parseUnsignedDec cs with
      | some n => n
      | none => .nan

/-- Model of the ECMAScript `Number(string)` conversion (StringToNumber):
trim whitespace; empty means `0`; optional sign followed by a decimal
literal or `Infinity`; unsigned hex/binary/octal integer literals; NaN
otherwise. -/
def strToNumber (s : String) : JSNum :=
  match (jsTrim s).data with
  | [] => .dec 0 0
  | '+' :: rest => signedTail rest
  | '-' :: rest => jsNeg (signedTail rest)
  | cs => unsignedTail cs

/-- Is this JavaScript number an integer (`Number.isInteger`)?  The value
`m / 10 ^ k` is an integer exactly when `10 ^ k` divides `m`. -/
def jsIsInteger : JSNum → Bool
  | .dec m k => m % (10 : ℤ) ^ k = 0
  | _ => false

/-- Is this JavaScript number strictly positive (`0 < n`)? -/
def jsIsPos : JSNum → Bool
  | .dec m _ => 0 < m
  | .posInf => true
  | _ => false

/-- Embedding of `parseValidityOrDefault` (App.js lines 42-51):
empty or whitespace-only input defaults to 30; otherwise the trimmed
string is converted with `Number(...)` and the result is kept only when
it is an integer strictly greater than 0; `none` models the `null`
invalid-marker.  The returned integer `m / 10 ^ k` is computed by exact
division. -/
def parseValidityOrDefault (value : String) : Option ℤ :=
  if value = "" ∨ jsTrim value = "" then some 30
  else match strToNumber (jsTrim value) with
    | .dec m k =>
      if m % (10 : ℤ) ^ k = 0 ∧ 0 < m then some (m / (10 : ℤ) ^ k) else none
    | _ => none

/-- Result of a successful WHATWG URL parse, restricted to the only field
the code observes: `protocol` (lower-cased scheme followed by a colon). -/
structure URLRec where
  protocol : String
deriving DecidableEq, Repr

/-- C0 control characters and space: stripped from both ends of the input
by the URL parser. -/
def isC0OrSpace (c : Char) : Bool := c.toNat ≤ 0x20

/-- Pre-processing of the URL constructor input: trim C0 controls and
spaces from both ends, then remove every ASCII tab, LF and CR. -/
def stripURLNoise (s : String) : List Char :=
  (((s.data.dropWhile isC0OrSpace).reverse.dropWhile isC0OrSpace).reverse).filter
    fun c => ¬ (c = '\t' ∨ c = '\n' ∨ c = '\r')

def isSchemeChar (c : Char) : Bool :=
  c.isAlpha ∨ c.isDigit ∨ c = '+' ∨ c = '-' ∨ c = '.'

/-- Schemes the WHATWG standard singles out as special. -/
def specialSchemes : List String := ["http", "https", "ws", "wss", "ftp", "file"]

/-- Code points that may not appear in a (non-IPv6) host. -/
def isForbiddenHostChar (c : Char) : Bool :=
  c.toNat = 0 ∨ c = ' ' ∨ c = '#' ∨ c = '<' ∨ c = '>' ∨ c = '@' ∨ c = '[' ∨
    c = ']' ∨ c = '^' ∨ c = '|' ∨ c = '%'

/-- The part of the authority after the last `@` (anything before it is
userinfo). -/
def afterLastAt (cs : List Char) : List Char :=
  ((cs.reverse).takeWhile (fun c => c ≠ '@')).reverse

/-- Model of the WHATWG `new URL(input)` constructor (no base URL),
covering the fragment `isValidHttpUrl` observes.  `none` models the
constructor throwing.  A scheme (letter, then letters/digits/`+`/`-`/`.`)
followed by `:` is required.  For the special schemes other than `file`,
slashes after the colon are skipped and a host is required: non-empty,
free of forbidden code points, with an optional all-digit port below
65536.  Other schemes take an opaque path and always succeed.  IDNA
normalization, IPv6 brackets and percent-encoding validation are not
modelled. -/
def jsURL (input : String) : Option URLRec :=
  let cs := stripURLNoise input
  match cs with
  | [] => none
  | c0 :: _ =>
    if ¬ c0.isAlpha then none
    else
      let sch := cs.takeWhile isSchemeChar
      let rest := cs.drop sch.length
      match rest with
      | ':' :: r =>
        let scheme := String.mk (sch.map Char.toLower)
        if scheme ∈ specialSchemes then
          if scheme = "file" then some ⟨"file:"⟩
          else
            let r2 := r.dropWhile fun c => c = '/' ∨ c = '\\'
            let auth := r2.takeWhile fun c => ¬ (c = '/' ∨ c = '\\' ∨ c = '?' ∨ c = '#')
            let hostport := afterLastAt auth
            let host := hostport.takeWhile fun c => c ≠ ':'
            let port := (hostport.drop host.length).drop 1
            if host = [] then none
            else if host.any isForbiddenHostChar then none
            else if ¬ port.all isDecDigit then none
            else if port ≠ [] ∧ 65536 ≤ digitsToNat 10 port then none
            else some ⟨scheme ++ ":"⟩
        else some ⟨scheme ++ ":"⟩
      | _ => none

/-- Embedding of `isValidHttpUrl` (App.js lines 33-40): true exactly when
the URL constructor succeeds and the resulting protocol is `http:` or
`https:`; a parse failure (the constructor throwing) is caught and gives
`false`. -/
def isValidHttpUrl (value : String) : Bool :=
  match jsURL value with
  | some u => u.protocol = "http:" ∨ u.protocol = "https:"
  | none => false

/-- One entry of the persisted history (App.js line 102): the trimmed long
URL, the surfaced short URL, creation time (`Date.now()`, integer epoch
milliseconds), expiry (a JSON number, kept as an exact rational) and the
resolved validity minutes. -/
structure HistoryEntry where
  longUrl : String
  shortUrl : String
  createdAt : ℤ
  expiresAt : ℚ
  validityMinutes : ℤ
deriving DecidableEq, Repr

/-- Embedding of the history update (App.js lines 101-104):
`[entry, ...prev].slice(0, 20)` prepends and truncates to 20 elements. -/
def record (e : HistoryEntry) (l : List HistoryEntry) : List HistoryEntry :=
  (e :: l).take 20

/-- Fold a sequence of `record` operations over an initial collection,
oldest first. -/
def recordAll (es : List HistoryEntry) (l : List HistoryEntry) : List HistoryEntry :=
  es.foldl (fun acc e => record e acc) l

/-- The parsed JSON body of a successful `/shorten` response, restricted to
the five keys the code reads, at the types the external interface
documents: the three short-URL keys hold strings, the two expiry keys
hold numbers (exact rationals); `none` models an absent key. -/
structure ShortenResponse where
  shortUrl : Option String
  short_url : Option String
  short : Option String
  expiresAt : Option ℚ
  expires_at : Option ℚ
deriving DecidableEq, Repr

/-- Outcome of the `fetch` call, passed to the orchestration as data:
either the promise rejects with an error message (transport failure), or
a response arrives with its `ok` flag, its body text, and the result of
`response.json()` (`Except.error` models a JSON parse failure with its
error message). -/
inductive NetOutcome where
  | transportFail : String → NetOutcome
  | resp : Bool → String → Except String ShortenResponse → NetOutcome

/-- The observable result of one submission: the error message, the
surfaced short URL and expiry, the history collection, the alias field
(cleared on success), and whether a network request was issued. -/
structure SubmitOut where
  errorMessage : String
  shortUrl : String
  expiresAt : Option ℚ
  history : List HistoryEntry
  aliasField : String
  requestSent : Bool
deriving DecidableEq, Repr

/-- JavaScript `a || b` for a string: the fallback is used when `a` is
empty (falsy). -/
def jsOrMsg (a b : String) : String := if a = "" then b else a

/-- JavaScript `a || fallback` where `a` is an optional string field:
an absent or empty value is falsy. -/
def jsStrOr (a : Option String) (fallback : String) : String :=
  match a with
  | none => fallback
  | some s => if s = "" then fallback else s

/-- The chain `data.shortUrl || data.short_url || data.short || ''`
(App.js line 91). -/
def jsStrOr3 (a b c : Option String) : String :=
  jsStrOr a (jsStrOr b (jsStrOr c ""))

/-- JavaScript `a || b` where `a` is an optional numeric field: an absent
key (undefined) and the number 0 are falsy. -/
def jsNumOr (a : Option ℚ) (b : Option ℚ) : Option ℚ :=
  match a with
  | none => b
  | some q => if q = 0 then b else some q

/-- The chain `data.expiresAt || data.expires_at || null` (App.js line 92). -/
def jsNumOr2 (a b : Option ℚ) : Option ℚ := jsNumOr a (jsNumOr b none)

/-- The surfaced expiry (App.js lines 92 and 97): the first truthy value
among `data.expiresAt` and `data.expires_at`, or the locally derived
`Date.now() + minutes * 60 * 1000` when both are absent or falsy. -/
def expiryOf (data : ShortenResponse) (now minutes : ℤ) : ℚ :=
  match jsNumOr2 data.expiresAt data.expires_at with
  | some q => q
  | none => ((now + minutes * 60 * 1000 : ℤ) : ℚ)

/-- A failed submission: only the error message is set; the previous
history and alias field are untouched. -/
def mkFail (msg : String) (history : List HistoryEntry) (aliasField : String)
    (sent : Bool) : SubmitOut :=
  ⟨msg, "", none, history, aliasField, sent⟩

/-- The part of `handleSubmit` after validation succeeded (App.js lines
74-110): issue the request and handle the four outcomes — transport
failure, non-ok status, JSON parse failure, and a parsed body, in which
case the short URL and expiry are normalized and, when a short URL is
found, a history entry is recorded and the alias field cleared. -/
def respondNet (trimmedUrl : String) (aliasField : String)
    (history : List HistoryEntry) (now : ℤ) (minutes : ℤ)
    (net : NetOutcome) : SubmitOut :=
  match net with
  | .transportFail m => mkFail (jsOrMsg m "Something went wrong") history aliasField true
  | .resp ok bodyText body =>
    if ok = false then
      mkFail (jsOrMsg (jsOrMsg bodyText "Failed to shorten URL") "Something went wrong")
        history aliasField true
    else
      match body with
      | .error m => mkFail (jsOrMsg m "Something went wrong") history aliasField true
      | .ok data =>
        let generatedShortUrl := jsStrOr3 data.shortUrl data.short_url data.short
        if generatedShortUrl = "" then
          mkFail "Unexpected response from server." history aliasField true
        else
          let computedExpiry : ℚ := expiryOf data now minutes
          ⟨"", generatedShortUrl, some computedExpiry,
            record ⟨trimmedUrl, generatedShortUrl, now, computedExpiry, minutes⟩ history,
            "", true⟩

/-- Embedding of `handleSubmit` (App.js lines 53-111) as a pure function
of the three input fields, the current history, the current time
(`Date.now()`) and the network outcome.  Validation short-circuits, in
source order, before any request is issued. -/
def handleSubmit (longUrl aliasField validity : String)
    (history : List HistoryEntry) (now : ℤ) (net : NetOutcome) : SubmitOut :=
  if jsTrim longUrl = "" then
    mkFail "Please enter a URL to shorten." history aliasField false
  else if isValidHttpUrl (jsTrim longUrl) = false then
    mkFail "Please enter a valid http(s) URL." history aliasField false
  else
    match parseValidityOrDefault validity with
    | none => mkFail "Validity must be a positive integer (minutes)." history aliasField false
    | some minutes => respondNet (jsTrim longUrl) aliasField history now minutes net

/-- JSON values, used to model the persisted blob.  `JSON.stringify`
followed by `JSON.parse` is the identity on such plain data, so the
persisted text is modelled by the JSON value itself. -/
inductive JVal where
  | jnum : ℚ → JVal
  | jstr : String → JVal
  | jbool : Bool → JVal
  | jnull : JVal
  | jarr : List JVal → JVal
  | jobj : List (String × JVal) → JVal

/-- Lookup of an object field by key (first binding wins, as in a JS
object literal read). -/
def jlookup : List (String × JVal) → String → Option JVal
  | [], _ => none
  | (k, v) :: rest, key => if k = key then some v else jlookup rest key

/-- JSON encoding of one history entry, exactly the object literal built
at App.js line 102. -/
def encodeEntry (e : HistoryEntry) : JVal :=
  .jobj [("longUrl", .jstr e.longUrl), ("shortUrl", .jstr e.shortUrl),
    ("createdAt", .jnum (e.createdAt : ℚ)), ("expiresAt", .jnum e.expiresAt),
    ("validityMinutes", .jnum (e.validityMinutes : ℚ))]

/-- JSON encoding of the whole collection: `JSON.stringify(history)`
(App.js line 27) serializes the array of entry objects. -/
def encodeHistory (l : List HistoryEntry) : JVal :=
  .jarr (l.map encodeEntry)

/-- Read one history entry back from a JSON value.  The source performs no
validation (`JSON.parse` returns the object as-is); this function is the
meaning of such an object as a typed entry, and it succeeds on every
value `encodeEntry` produces. -/
def decodeEntry (v : JVal) : Option HistoryEntry :=
  match v with
  | .jobj fs =>
    match jlookup fs "longUrl", jlookup fs "shortUrl", jlookup fs "createdAt",
        jlookup fs "expiresAt", jlookup fs "validityMinutes" with
    | some (.jstr lu), some (.jstr su), some (.jnum ca), some (.jnum ea), some (.jnum vm) =>
      if ca.den = 1 ∧ vm.den = 1 then some ⟨lu, su, ca.num, ea, vm.num⟩ else none
    | _, _, _, _, _ => none
  | _ => none

/-- Read a list of history entries back from a list of JSON values. -/
def decodeEntries : List JVal → Option (List HistoryEntry)
  | [] => some []
  | v :: vs =>
    match decodeEntry v, decodeEntries vs with
    | some e, some es => some (e :: es)
    | _, _ => none

/-- Read a whole collection back from the persisted JSON value. -/
def decodeHistory (v : JVal) : Option (List HistoryEntry) :=
  match v with
  | .jarr vs => decodeEntries vs
  | _ => none

/-- Outcome of the `localStorage.getItem` read at startup: the key is
missing, the stored blob is not valid JSON (`JSON.parse` throws), the
blob parses to a JSON value, or the storage layer itself throws. -/
inductive StorageResult where
  | missing : StorageResult
  | malformed : StorageResult
  | blob : JVal → StorageResult
  | fault : StorageResult

/-- Embedding of the history initializer (App.js lines 12-19): a missing
key yields `[]`; a malformed blob or a storage fault is caught and
yields `[]`; a parsed JSON value is used as the history as-is (the
source does not validate it; values that do not denote an entry list are
interpreted as the empty collection). -/
def load (r : StorageResult) : List HistoryEntry :=
  match r with
  | .missing => []
  | .malformed => []
  | .fault => []
  | .blob v => (decodeHistory v).getD []

/-- Modelled from the spec (for comparison in C3): parsing the trimmed
string "as a base-10 integer" — an optional sign followed by decimal
digits only, valued in base 10. -/
def base10IntOfString (s : String) : Option ℤ :=
  match (jsTrim s).data with
  | [] => none
  | '+' :: ds => if ds ≠ [] ∧ ds.all isDecDigit then some (digitsToNat 10 ds : ℤ) else none
  | '-' :: ds => if ds ≠ [] ∧ ds.all isDecDigit then some (-(digitsToNat 10 ds : ℤ)) else none
  | ds => if ds ≠ [] ∧ ds.all isDecDigit then some (digitsToNat 10 ds : ℤ) else none

theorem exact_div_pos (m d : ℤ) (hd : 0 < d) (hdvd : d ∣ m) (hm : 0 < m) :
    0 < m / d := by
  have hcancel : m / d * d = m := Int.ediv_mul_cancel hdvd
  by_contra hnot
  push_neg at hnot
  have : m / d * d ≤ 0 := mul_nonpos_of_nonpos_of_nonneg hnot (le_of_lt hd)
  omega

/-- C3 (amended): `parseValidityOrDefault` returns the default 30 for
empty or whitespace-only input; otherwise it converts the trimmed string
with the JavaScript `Number(...)` conversion and accepts the value only
when it is an integer strictly greater than zero — every accepted result
is a positive integer, every non-integer or non-positive conversion (and
every NaN, covering non-numeric input) yields the invalid-marker `none`,
and the spec's vectors evaluate as stated. -/
theorem C3_parseValidity_amended :
    (∀ s, jsTrim s = "" → parseValidityOrDefault s = some 30) ∧
    (∀ s n, parseValidityOrDefault s = some n → 0 < n) ∧
    (∀ s, jsTrim s ≠ "" →
      (jsIsInteger (strToNumber (jsTrim s)) = false ∨
        jsIsPos (strToNumber (jsTrim s)) = false) →
      parseValidityOrDefault s = none) ∧
    parseValidityOrDefault "15" = some 15 ∧
    parseValidityOrDefault "0" = none ∧
    parseValidityOrDefault "-5" = none ∧
    parseValidityOrDefault "2.5" = none ∧
    parseValidityOrDefault "abc" = none := by
  refine ⟨?_, ?_, ?_, by decide, by decide, by decide, by decide, by decide⟩
  · intro s hs
    simp [parseValidityOrDefault, hs]
  · intro s n h
    by_cases hempty : s = "" ∨ jsTrim s = ""
    · simp [parseValidityOrDefault, hempty] at h
      omega
    · rcases hnum : strToNumber (jsTrim s) with _ | _ | _ | ⟨m, k⟩ <;>
        simp [parseValidityOrDefault, hempty, hnum] at h
      obtain ⟨⟨hdvd, hpos⟩, hval⟩ := h
      subst hval
      exact exact_div_pos m ((10 : ℤ) ^ k) (by positivity) hdvd hpos
  · intro s hs hbad
    have hempty : ¬ (s = "" ∨ jsTrim s = "") := by
      rintro (h | h)
      · exact hs (by simp [h, jsTrim])
      · exact hs h
    rcases hnum : strToNumber (jsTrim s) with _ | _ | _ | ⟨m, k⟩
    · simp [parseValidityOrDefault, hempty, hnum]
    · simp [parseValidityOrDefault, hempty, hnum]
    · simp [parseValidityOrDefault, hempty, hnum]
    · rcases hbad with hbad | hbad
      · have hni : ¬ ((10 : ℤ) ^ k ∣ m) := by
          simpa [jsIsInteger, hnum, ← Int.dvd_iff_emod_eq_zero] using hbad
        simp [parseValidityOrDefault, hempty, hnum, hni]
      · have hnp : ¬ (0 < m) := by simpa [jsIsPos, hnum] using hbad
        simp [parseValidityOrDefault, hempty, hnum, hnp]

/-- C3 counterexample: the claim reads `parseValidityOrDefault` as a
base-10 integer parse, under which `"0x10"` is not a numeral and must
yield the invalid-marker; the code converts with `Number(...)`, which
accepts the hexadecimal literal, and returns 16. -/
theorem C3_parseValidity_counterexample :
    base10IntOfString "0x10" = none ∧ parseValidityOrDefault "0x10" = some 16 := by
  constructor <;> decide

/-- C3 witness: the amended theorem applied at concrete inputs — the
whitespace-only default and the rejection of the non-numeric `"abc"`. -/
theorem C3_parseValidity_witness :
    parseValidityOrDefault "  " = some 30 ∧ parseValidityOrDefault "abc" = none := by
  refine ⟨C3_parseValidity_amended.1 "  " (by decide), ?_⟩
  refine C3_parseValidity_amended.2.2.1 "abc" (by decide) (Or.inl (by decide))

/-- C4: `isValidHttpUrl` is true only when the URL constructor succeeds
with protocol `http:` or `https:`; a failed parse or any other protocol
gives false, and the spec's three vectors evaluate as stated.  The
function is total, so no exception escapes. -/
theorem C4_isValidHttpUrl_spec :
    (∀ s, isValidHttpUrl s = true →
      ∃ u, jsURL s = some u ∧ (u.protocol = "http:" ∨ u.protocol = "https:")) ∧
    (∀ s, jsURL s = none → isValidHttpUrl s = false) ∧
    (∀ s u, jsURL s = some u → u.protocol ≠ "http:" → u.protocol ≠ "https:" →
      isValidHttpUrl s = false) ∧
    isValidHttpUrl "https://example.com" = true ∧
    isValidHttpUrl "ftp://x" = false ∧
    isValidHttpUrl "not a url" = false := by
  refine ⟨?_, ?_, ?_, by decide, by decide, by decide⟩
  · intro s h
    rcases hurl : jsURL s with _ | u
    · simp [isValidHttpUrl, hurl] at h
    · refine ⟨u, rfl, ?_⟩
      simpa [isValidHttpUrl, hurl] using h
  · intro s h
    simp [isValidHttpUrl, h]
  · intro s u h h1 h2
    simp [isValidHttpUrl, h, h1, h2]

/-- C4 witness: the theorem applied at concrete inputs — `"ftp://x"`
parses with protocol `ftp:` and is therefore rejected. -/
theorem C4_isValidHttpUrl_witness : isValidHttpUrl "ftp://x" = false :=
  C4_isValidHttpUrl_spec.2.2.1 "ftp://x" ⟨"ftp:"⟩ (by decide) (by decide) (by decide)

theorem take_append_take {α : Type} (a b : List α) (n : ℕ) :
    (a ++ b.take n).take n = (a ++ b).take n := by
  rw [List.take_append_eq_append_take, List.take_append_eq_append_take, List.take_take]
  congr 1
  congr 1
  omega

theorem recordAll_eq (es : List HistoryEntry) (l0 : List HistoryEntry)
    (h : l0.length ≤ 20) : recordAll es l0 = (es.reverse ++ l0).take 20 := by
  induction es generalizing l0 with
  | nil => simpa [recordAll] using (List.take_of_length_le h).symm
  | cons e t ih =>
    have h1 : recordAll (e :: t) l0 = recordAll t (record e l0) := rfl
    have h2 : (record e l0).length ≤ 20 := List.length_take_le 20 (e :: l0)
    rw [h1, ih (record e l0) h2, record, take_append_take]
    simp [List.append_assoc]

/-- C2: every `record` leaves at most 20 entries; recording 21 entries in
sequence (from any starting collection) leaves exactly 20, equal to the
last 20 recorded entries newest-first, so the first-recorded entry is
gone (when the 21 entries are distinct) and the 21st-recorded entry sits
at the front. -/
theorem C2_history_bound_fifo (es l0 : List HistoryEntry) (h21 : es.length = 21) :
    (∀ e l, (record e l).length ≤ 20) ∧
    (recordAll es l0).length = 20 ∧
    recordAll es l0 = es.reverse.take 20 ∧
    (∀ e, es.head? = some e → es.Nodup → e ∉ recordAll es l0) ∧
    (∀ e, es.getLast? = some e → (recordAll es l0).head? = some e) := by
  obtain ⟨e, t, rfl⟩ : ∃ e t, es = e :: t := by
    cases es with
    | nil => simp at h21
    | cons e t => exact ⟨e, t, rfl⟩
  have ht : t.length = 20 := by simpa using h21
  have hrec : recordAll (e :: t) l0 = t.reverse := by
    have h1 : recordAll (e :: t) l0 = recordAll t (record e l0) := rfl
    have h2 : (record e l0).length ≤ 20 := List.length_take_le 20 (e :: l0)
    rw [h1, recordAll_eq t (record e l0) h2,
      List.take_append_of_le_length (by simp [ht]),
      List.take_of_length_le (by simp [ht])]
  refine ⟨?_, ?_, ?_, ?_, ?_⟩
  · intro e' l
    exact List.length_take_le 20 (e' :: l)
  · rw [hrec]
    simp [ht]
  · rw [hrec, List.reverse_cons, List.take_append_of_le_length (by simp [ht]),
      List.take_of_length_le (by simp [ht])]
  · intro e' he' hnd
    have : e = e' := by simpa using he'
    subst this
    rw [hrec, List.mem_reverse]
    exact (List.nodup_cons.mp hnd).1
  · intro e' he'
    rw [hrec, List.head?_reverse]
    obtain ⟨b, t', rfl⟩ : ∃ b t', t = b :: t' := by
      cases t with
      | nil => simp at ht
      | cons b t' => exact ⟨b, t', rfl⟩
    simpa [List.getLast?_cons_cons] using he'

/-- C2 witness: the theorem applied to 21 concrete distinct entries over
the empty starting collection — the first-recorded entry is absent and
the 21st-recorded entry is at the front. -/
theorem C2_history_bound_fifo_witness :
    (recordAll ((List.range 21).map fun i => ⟨"", "", (i : ℤ), 0, 30⟩) []).length = 20 ∧
    (⟨"", "", ((0 : ℕ) : ℤ), 0, 30⟩ : HistoryEntry) ∉
      recordAll ((List.range 21).map fun i => ⟨"", "", (i : ℤ), 0, 30⟩) [] ∧
    (recordAll ((List.range 21).map fun i => ⟨"", "", (i : ℤ), 0, 30⟩) []).head? =
      some ⟨"", "", ((20 : ℕ) : ℤ), 0, 30⟩ := by
  have h := C2_history_bound_fifo
    ((List.range 21).map fun i => ⟨"", "", (i : ℤ), 0, 30⟩) [] (by decide)
  exact ⟨h.2.1, h.2.2.2.1 _ (by decide) (by decide), h.2.2.2.2 _ (by decide)⟩

theorem decodeEntry_encodeEntry (e : HistoryEntry) :
    decodeEntry (encodeEntry e) = some e := by
  cases e with
  | mk lu su ca ea vm => simp [decodeEntry, encodeEntry, jlookup]

theorem decodeHistory_encodeHistory (l : List HistoryEntry) :
    decodeHistory (encodeHistory l) = some l := by
  induction l with
  | nil => rfl
  | cons e t ih =>
    have ht : decodeEntries (t.map encodeEntry) = some t := by
      simpa [decodeHistory, encodeHistory] using ih
    simp [decodeHistory, encodeHistory, decodeEntries, decodeEntry_encodeEntry, ht]

/-- C8: the persistence round-trip — after any `record`, parsing the
persisted JSON blob back (a simulated reload) returns exactly the
in-memory collection, preserving order and every field of every entry. -/
theorem C8_record_load_roundtrip (l : List HistoryEntry) (e : HistoryEntry) :
    load (.blob (encodeHistory (record e l))) = record e l ∧
    decodeHistory (encodeHistory (record e l)) = some (record e l) := by
  constructor
  · simp [load, decodeHistory_encodeHistory]
  · exact decodeHistory_encodeHistory (record e l)

/-- C9: the startup `load` returns the empty collection on a missing key,
on a malformed persisted blob (`JSON.parse` throwing), and on a
storage-layer fault; being a total function, it propagates no fault. -/
theorem C9_load_faults_empty :
    load .missing = [] ∧ load .malformed = [] ∧ load .fault = [] :=
  ⟨rfl, rfl, rfl⟩

theorem handleSubmit_valid (lu al v : String) (h0 : List HistoryEntry) (now : ℤ)
    (net : NetOutcome) (m : ℤ) (h1 : jsTrim lu ≠ "")
    (h2 : isValidHttpUrl (jsTrim lu) = true) (h3 : parseValidityOrDefault v = some m) :
    handleSubmit lu al v h0 now net = respondNet (jsTrim lu) al h0 now m net := by
  unfold handleSubmit
  rw [if_neg h1, if_neg (by simp [h2]), h3]

theorem jsOrMsg_chain (t : String) :
    jsOrMsg (jsOrMsg t "Failed to shorten URL") "Something went wrong" =
      if t = "" then "Failed to shorten URL" else t := by
  by_cases h : t = "" <;> simp [jsOrMsg, h]

theorem jsStrOr3_first (a b c : Option String) (s : String) (ha : a = some s)
    (hs : s ≠ "") : jsStrOr3 a b c = s := by
  simp [jsStrOr3, jsStrOr, ha, hs]

theorem jsStrOr3_second (a b c : Option String) (s : String)
    (ha : a = none ∨ a = some "") (hb : b = some s) (hs : s ≠ "") :
    jsStrOr3 a b c = s := by
  rcases ha with ha | ha <;> simp [jsStrOr3, jsStrOr, ha, hb, hs]

theorem jsStrOr3_third (a b c : Option String) (s : String)
    (ha : a = none ∨ a = some "") (hb : b = none ∨ b = some "")
    (hc : c = some s) (hs : s ≠ "") : jsStrOr3 a b c = s := by
  rcases ha with ha | ha <;> rcases hb with hb | hb <;>
    simp [jsStrOr3, jsStrOr, ha, hb, hc, hs]

theorem jsStrOr3_none (a b c : Option String)
    (ha : a = none ∨ a = some "") (hb : b = none ∨ b = some "")
    (hc : c = none ∨ c = some "") : jsStrOr3 a b c = "" := by
  rcases ha with ha | ha <;> rcases hb with hb | hb <;> rcases hc with hc | hc <;>
    simp [jsStrOr3, jsStrOr, ha, hb, hc]

theorem jsNumOr2_first (a b : Option ℚ) (q : ℚ) (ha : a = some q) (hq : q ≠ 0) :
    jsNumOr2 a b = some q := by
  simp [jsNumOr2, jsNumOr, ha, hq]

theorem jsNumOr2_second (a b : Option ℚ) (q : ℚ)
    (ha : a = none ∨ a = some 0) (hb : b = some q) (hq : q ≠ 0) :
    jsNumOr2 a b = some q := by
  rcases ha with ha | ha <;> simp [jsNumOr2, jsNumOr, ha, hb, hq]

theorem jsNumOr2_none (a b : Option ℚ)
    (ha : a = none ∨ a = some 0) (hb : b = none ∨ b = some 0) :
    jsNumOr2 a b = none := by
  rcases ha with ha | ha <;> rcases hb with hb | hb <;> simp [jsNumOr2, jsNumOr, ha, hb]

/-- C6: when validation passes and the response arrives with a non-ok
status, the submission fails with the response body text verbatim as the
error message when the body is non-empty, and with the generic fallback
message when the body is empty; no result is surfaced and the history is
untouched. -/
theorem C6_http_error_body (lu al v : String) (h0 : List HistoryEntry) (now : ℤ)
    (t : String) (body : Except String ShortenResponse) (m : ℤ)
    (h1 : jsTrim lu ≠ "") (h2 : isValidHttpUrl (jsTrim lu) = true)
    (h3 : parseValidityOrDefault v = some m) :
    (handleSubmit lu al v h0 now (.resp false t body)).errorMessage =
      (if t = "" then "Failed to shorten URL" else t) ∧
    (handleSubmit lu al v h0 now (.resp false t body)).shortUrl = "" ∧
    (handleSubmit lu al v h0 now (.resp false t body)).history = h0 := by
  rw [handleSubmit_valid lu al v h0 now _ m h1 h2 h3]
  simp [respondNet, mkFail, jsOrMsg_chain]

/-- C6 witness: the theorem applied at a concrete submission whose
response has status non-ok and body `alias taken` — the surfaced error
message is exactly `alias taken`. -/
theorem C6_http_error_body_witness :
    (handleSubmit "https://example.com" "" "" [] 0
      (.resp false "alias taken" (.ok ⟨none, none, none, none, none⟩))).errorMessage =
      "alias taken" := by
  have h := C6_http_error_body "https://example.com" "" "" [] 0 "alias taken"
    (.ok ⟨none, none, none, none, none⟩) 30 (by decide) (by decide) (by decide)
  simpa using h.1

/-- C7: a submission whose long URL is empty after trimming issues no
network request and fails with the missing-URL message; a non-empty but
invalid URL also issues no request but fails with the distinct
invalid-URL message. -/
theorem C7_missing_url_no_request (lu al v : String) (h0 : List HistoryEntry)
    (now : ℤ) (net : NetOutcome) :
    (jsTrim lu = "" →
      (handleSubmit lu al v h0 now net).requestSent = false ∧
      (handleSubmit lu al v h0 now net).errorMessage = "Please enter a URL to shorten.") ∧
    (jsTrim lu ≠ "" → isValidHttpUrl (jsTrim lu) = false →
      (handleSubmit lu al v h0 now net).requestSent = false ∧
      (handleSubmit lu al v h0 now net).errorMessage = "Please enter a valid http(s) URL.") ∧
    "Please enter a URL to shorten." ≠ ("Please enter a valid http(s) URL." : String) := by
  refine ⟨?_, ?_, by decide⟩
  · intro h
    simp [handleSubmit, h, mkFail]
  · intro h1 h2
    simp [handleSubmit, h1, h2, mkFail]

/-- C7 witness: the theorem applied at a concrete submission with a
whitespace-only long URL — no request is sent and the missing-URL error
is surfaced. -/
theorem C7_missing_url_no_request_witness :
    (handleSubmit "   " "" "" [] 0 (.transportFail "boom")).requestSent = false ∧
    (handleSubmit "   " "" "" [] 0 (.transportFail "boom")).errorMessage =
      "Please enter a URL to shorten." :=
  (C7_missing_url_no_request "   " "" "" [] 0 (.transportFail "boom")).1 (by decide)

theorem expiryOf_first (d : ShortenResponse) (now m : ℤ) (q : ℚ)
    (ha : d.expiresAt = some q) (hq : q ≠ 0) : expiryOf d now m = q := by
  simp [expiryOf, jsNumOr2_first d.expiresAt d.expires_at q ha hq]

theorem expiryOf_second (d : ShortenResponse) (now m : ℤ) (q : ℚ)
    (ha : d.expiresAt = none ∨ d.expiresAt = some 0)
    (hb : d.expires_at = some q) (hq : q ≠ 0) : expiryOf d now m = q := by
  simp [expiryOf, jsNumOr2_second d.expiresAt d.expires_at q ha hb hq]

theorem expiryOf_fallback (d : ShortenResponse) (now m : ℤ)
    (ha : d.expiresAt = none ∨ d.expiresAt = some 0)
    (hb : d.expires_at = none ∨ d.expires_at = some 0) :
    expiryOf d now m = ((now + m * 60 * 1000 : ℤ) : ℚ) := by
  simp [expiryOf, jsNumOr2_none d.expiresAt d.expires_at ha hb]

theorem respondNet_success (tu al : String) (h0 : List HistoryEntry) (now m : ℤ)
    (t : String) (d : ShortenResponse) (s : String)
    (hgen : jsStrOr3 d.shortUrl d.short_url d.short = s) (hs : s ≠ "") :
    respondNet tu al h0 now m (.resp true t (.ok d)) =
      ⟨"", s, some (expiryOf d now m),
        record ⟨tu, s, now, expiryOf d now m, m⟩ h0, "", true⟩ := by
  simp only [respondNet, hgen]
  rw [if_neg hs]
  simp

theorem respondNet_noShort (tu al : String) (h0 : List HistoryEntry) (now m : ℤ)
    (t : String) (d : ShortenResponse)
    (hgen : jsStrOr3 d.shortUrl d.short_url d.short = "") :
    respondNet tu al h0 now m (.resp true t (.ok d)) =
      mkFail "Unexpected response from server." h0 al true := by
  simp [respondNet, hgen]

/-- C5: on a successful response with a parsed JSON body, the surfaced
short URL is the first non-empty string among the `shortUrl`,
`short_url` and `short` keys, in that precedence order; when none of the
three keys holds a non-empty string, the submission fails with the
unexpected-response error and no result is surfaced. -/
theorem C5_shortUrl_precedence (lu al v : String) (h0 : List HistoryEntry)
    (now : ℤ) (t : String) (d : ShortenResponse) (m : ℤ)
    (h1 : jsTrim lu ≠ "") (h2 : isValidHttpUrl (jsTrim lu) = true)
    (h3 : parseValidityOrDefault v = some m) :
    (∀ s, d.shortUrl = some s → s ≠ "" →
      (handleSubmit lu al v h0 now (.resp true t (.ok d))).shortUrl = s ∧
      (handleSubmit lu al v h0 now (.resp true t (.ok d))).errorMessage = "") ∧
    (d.shortUrl = none ∨ d.shortUrl = some "" →
      ∀ s, d.short_url = some s → s ≠ "" →
      (handleSubmit lu al v h0 now (.resp true t (.ok d))).shortUrl = s ∧
      (handleSubmit lu al v h0 now (.resp true t (.ok d))).errorMessage = "") ∧
    (d.shortUrl = none ∨ d.shortUrl = some "" →
      d.short_url = none ∨ d.short_url = some "" →
      ∀ s, d.short = some s → s ≠ "" →
      (handleSubmit lu al v h0 now (.resp true t (.ok d))).shortUrl = s ∧
      (handleSubmit lu al v h0 now (.resp true t (.ok d))).errorMessage = "") ∧
    (d.shortUrl = none ∨ d.shortUrl = some "" →
      d.short_url = none ∨ d.short_url = some "" →
      d.short = none ∨ d.short = some "" →
      (handleSubmit lu al v h0 now (.resp true t (.ok d))).errorMessage =
        "Unexpected response from server." ∧
      (handleSubmit lu al v h0 now (.resp true t (.ok d))).shortUrl = "" ∧
      (handleSubmit lu al v h0 now (.resp true t (.ok d))).history = h0) := by
  rw [handleSubmit_valid lu al v h0 now _ m h1 h2 h3]
  refine ⟨?_, ?_, ?_, ?_⟩
  · intro s ha hs
    rw [respondNet_success _ al _ now m t d s (jsStrOr3_first _ _ _ s ha hs) hs]
    exact ⟨rfl, rfl⟩
  · intro ha s hb hs
    rw [respondNet_success _ al _ now m t d s (jsStrOr3_second _ _ _ s ha hb hs) hs]
    exact ⟨rfl, rfl⟩
  · intro ha hb s hc hs
    rw [respondNet_success _ al _ now m t d s (jsStrOr3_third _ _ _ s ha hb hc hs) hs]
    exact ⟨rfl, rfl⟩
  · intro ha hb hc
    rw [respondNet_noShort _ al _ now m t d (jsStrOr3_none _ _ _ ha hb hc)]
    exact ⟨rfl, rfl, rfl⟩

/-- C5 witness: the theorem applied at a concrete success response whose
only short-URL key is `short_url` — its value is surfaced. -/
theorem C5_shortUrl_precedence_witness :
    (handleSubmit "https://example.com" "" "" [] 0
      (.resp true "" (.ok ⟨none, some "https://s/x", none, none, none⟩))).shortUrl =
      "https://s/x" :=
  ((C5_shortUrl_precedence "https://example.com" "" "" [] 0 ""
    ⟨none, some "https://s/x", none, none, none⟩ 30 (by decide) (by decide)
    (by decide)).2.1 (Or.inl rfl) "https://s/x" rfl (by decide)).1

/-- C1 (amended): on a successful response carrying a short URL, the
surfaced expiry is the first truthy value among the `expiresAt` and
`expires_at` keys — a field holding the falsy number 0 is passed over,
exactly like an absent field; when both keys are absent or hold 0, the
expiry is derived locally as `now + validityMinutes * 60000`. -/
theorem C1_expiry_amended (lu al v : String) (h0 : List HistoryEntry)
    (now : ℤ) (t : String) (d : ShortenResponse) (m : ℤ) (s : String)
    (h1 : jsTrim lu ≠ "") (h2 : isValidHttpUrl (jsTrim lu) = true)
    (h3 : parseValidityOrDefault v = some m)
    (hgen : jsStrOr3 d.shortUrl d.short_url d.short = s) (hs : s ≠ "") :
    (∀ q, d.expiresAt = some q → q ≠ 0 →
      (handleSubmit lu al v h0 now (.resp true t (.ok d))).expiresAt = some q) ∧
    (d.expiresAt = none ∨ d.expiresAt = some 0 →
      ∀ q, d.expires_at = some q → q ≠ 0 →
      (handleSubmit lu al v h0 now (.resp true t (.ok d))).expiresAt = some q) ∧
    (d.expiresAt = none ∨ d.expiresAt = some 0 →
      d.expires_at = none ∨ d.expires_at = some 0 →
      (handleSubmit lu al v h0 now (.resp true t (.ok d))).expiresAt =
        some ((now + m * 60 * 1000 : ℤ) : ℚ)) ∧
    (handleSubmit lu al v h0 now (.resp true t (.ok d))).errorMessage = "" := by
  rw [handleSubmit_valid lu al v h0 now _ m h1 h2 h3,
    respondNet_success _ al _ now m t d s hgen hs]
  refine ⟨?_, ?_, ?_, rfl⟩
  · intro q ha hq
    simp [expiryOf_first d now m q ha hq]
  · intro ha q hb hq
    simp [expiryOf_second d now m q ha hb hq]
  · intro ha hb
    simp [expiryOf_fallback d now m ha hb]

/-- C1 counterexample: a successful response in which the `expiresAt`
field is present with the value 0.  The claim requires the surfaced
expiry to equal that field's value (0); the code treats the falsy 0 as
absent and derives the expiry locally, surfacing 1800000 (= 0 + 30
minutes) instead. -/
theorem C1_expiry_counterexample :
    (handleSubmit "https://example.com" "" "" [] 0
      (.resp true "" (.ok ⟨some "https://s/x", none, none, some 0, none⟩))).expiresAt =
      some 1800000 ∧ (1800000 : ℚ) ≠ 0 := by
  constructor <;> decide

/-- C1 witness: the amended theorem applied at the spec's example response
`{"short_url":"https://s/x","expires_at":1700000000000}` — the surfaced
expiry is exactly the server value. -/
theorem C1_expiry_amended_witness :
    (handleSubmit "https://example.com" "" "" [] 0
      (.resp true "" (.ok ⟨none, some "https://s/x", none, none,
        some 1700000000000⟩))).expiresAt = some 1700000000000 :=
  (C1_expiry_amended "https://example.com" "" "" [] 0 ""
    ⟨none, some "https://s/x", none, none, some 1700000000000⟩ 30 "https://s/x"
    (by decide) (by decide) (by decide) (by decide) (by decide)).2.1
    (Or.inl rfl) 1700000000000 rfl (by decide)

/-- C10: for every submission, the resulting history is either the
previous collection unchanged or the previous collection with exactly one
new entry recorded; whenever an error message is surfaced the history is
unchanged, and whenever the history changed the submission succeeded
(no error message, a non-empty short URL). -/
theorem C10_failure_leaves_history (lu al v : String) (h0 : List HistoryEntry)
    (now : ℤ) (net : NetOutcome) :
    ((handleSubmit lu al v h0 now net).errorMessage ≠ "" →
      (handleSubmit lu al v h0 now net).history = h0) ∧
    ((handleSubmit lu al v h0 now net).history ≠ h0 →
      (handleSubmit lu al v h0 now net).errorMessage = "" ∧
      (handleSubmit lu al v h0 now net).shortUrl ≠ "") ∧
    ((handleSubmit lu al v h0 now net).history = h0 ∨
      ∃ en, (handleSubmit lu al v h0 now net).history = record en h0) := by
  by_cases h1 : jsTrim lu = ""
  · simp [handleSubmit, h1, mkFail]
  · by_cases h2 : isValidHttpUrl (jsTrim lu) = false
    · simp [handleSubmit, h1, h2, mkFail]
    · have h2' : isValidHttpUrl (jsTrim lu) = true := by
        revert h2
        cases isValidHttpUrl (jsTrim lu) <;> simp
      rcases h3 : parseValidityOrDefault v with _ | m
      · simp [handleSubmit, h1, h2, h3, mkFail]
      · rw [handleSubmit_valid lu al v h0 now net m h1 h2' h3]
        cases net with
        | transportFail msg => simp [respondNet, mkFail]
        | resp ok t body =>
          by_cases hok : ok = false
          · subst hok
            simp [respondNet, mkFail]
          · have hok' : ok = true := by
              revert hok
              cases ok <;> simp
            subst hok'
            cases body with
            | error msg => simp [respondNet, mkFail]
            | ok d =>
              by_cases hgen : jsStrOr3 d.shortUrl d.short_url d.short = ""
              · rw [respondNet_noShort _ al _ now m t d hgen]
                simp [mkFail]
              · rw [respondNet_success _ al _ now m t d _ rfl hgen]
                refine ⟨by simp, fun _ => ⟨rfl, hgen⟩, Or.inr ⟨_, rfl⟩⟩

/-- C10 witness: the theorem applied at a concrete failing submission
(invalid validity input) — an error is surfaced and the history is the
untouched previous collection. -/
theorem C10_failure_leaves_history_witness :
    (handleSubmit "https://example.com" "" "0" [⟨"a", "b", 1, 2, 3⟩] 0
      (.transportFail "boom")).history = [⟨"a", "b", 1, 2, 3⟩] :=
  (C10_failure_leaves_history "https://example.com" "" "0" [⟨"a", "b", 1, 2, 3⟩] 0
    (.transportFail "boom")).1 (by decide)
